import Mathlib

/-!
Shallow embedding of `src/script.js` (Google Sheets customer-dashboard glue
code): initialization retry logic, the sign-in/sign-out view state machine,
storage-key handling, and the row mutation operations (add / edit / delete).

Modelling conventions:
* DOM element presence is a `Bool` field of an environment record `Env`
  (`document.getElementById(x) !== null`).
* `element.style.display` values are the `Display` inductive.
* The gapi client token (`gapi.client.setToken`) is `GapiToken`: `unset`
  before any call, `empty` after `setToken('')`, `token t` after
  `setToken({access_token: t})`.
* Browser storage for the single key `isLoggedIn` is an `Option String`
  per store (`none` = key absent).
* Calls into external collaborators (button render, dashboard init,
  auto-select revocation, remote sheet reads/writes, user-visible error
  banners) are recorded as an ordered event list of type `Ev`.
-/

/-- Display style of a DOM container (`style.display`). -/
inductive Display where
  | block
  | none
deriving DecidableEq, Repr

/-- The gapi client token state (`gapi.client.setToken` argument). -/
inductive GapiToken where
  | unset
  | empty
  | token (t : String)
deriving DecidableEq, Repr

/-- A `values.update` request: range `A<startRow>:H<endRow>`-style bounds,
`valueInputOption`, and the 2-dimensional value payload
(`script.js` lines 443-450 and 667-674). -/
structure UpdateValuesRequest where
  startCol : String
  startRow : Nat
  endCol : String
  endRow : Nat
  valueInputOption : String
  values : List (List String)
deriving DecidableEq, Repr

/-- The `deleteDimension.range` object built by `deleteCustomerRow`
(`script.js` lines 497-504). -/
structure DeleteDimensionRange where
  sheetId : Nat
  dimension : String
  startIndex : Nat
  endIndex : Nat
deriving DecidableEq, Repr

/-- A `batchUpdate` resource: the list of `deleteDimension` requests
(`script.js` lines 493-507). -/
structure DeleteBatchRequest where
  requests : List DeleteDimensionRange
deriving DecidableEq, Repr

/-- Observable calls into external collaborators, in program order. -/
inductive Ev where
  | renderButton
  | dashboardInit
  | disableAutoSelect
  | sheetsGet
  | sheetsUpdate (req : UpdateValuesRequest)
  | batchUpdateDelete (req : DeleteBatchRequest)
  | showUserError (msg : String)
deriving DecidableEq, Repr

/-- Static page/runtime environment: which DOM elements exist and which
external globals are defined. -/
structure Env where
  /-- `sign-in-container` element present. -/
  signInContainer : Bool
  /-- `main-content` element present. -/
  mainContent : Bool
  /-- `sign-out-button` element present. -/
  signOutButton : Bool
  /-- `g_id_onload` render-target element present. -/
  gIdOnload : Bool
  /-- `errorDisplay` element present. -/
  errorDisplay : Bool
  /-- `google.accounts.id` global defined. -/
  googleDefined : Bool
  /-- `googleSheetsIntegration` global truthy. -/
  sheetsIntegration : Bool
deriving DecidableEq, Repr

/-- The mutable program state: the global flags of `script.js` lines 4-6,
the gapi token, both storage copies of the `isLoggedIn` key, the display
style of the three view containers, the emitted external events and the
diagnostic log. -/
structure AppState where
  gapiInited : Bool
  gisLoadedFlag : Bool
  currentIdToken : Option String
  gapiToken : GapiToken
  /-- `sessionStorage` entry for the key `isLoggedIn`. -/
  sessionIsLoggedIn : Option String
  /-- `localStorage` entry for the key `isLoggedIn`. -/
  localIsLoggedIn : Option String
  loginDisplay : Display
  mainDisplay : Display
  signoutDisplay : Display
  events : List Ev
  log : List String
deriving DecidableEq, Repr

/-- State at script load (`script.js` lines 4-6: flags false, token null),
parameterized by whatever the two stores hold from earlier page loads. -/
def initialState (sessionFlag localFlag : Option String) : AppState where
  gapiInited := false
  gisLoadedFlag := false
  currentIdToken := none
  gapiToken := GapiToken.unset
  sessionIsLoggedIn := sessionFlag
  localIsLoggedIn := localFlag
  loginDisplay := Display.block
  mainDisplay := Display.none
  signoutDisplay := Display.none
  events := []
  log := []

/-- `script.js` lines 184-190: inside the signed-in branch the gapi token is
set from `currentIdToken` only when that token is truthy
(`if (currentIdToken)`; the empty string is falsy in JS). -/
def setTokenFromCredential (s : AppState) : AppState :=
  match s.currentIdToken with
  | some t => if t = "" then s else { s with gapiToken := GapiToken.token t }
  | none => s

/-- `updateSigninStatus` (`script.js` lines 166-211): bail out with only a
log line when any of the three view containers is missing; otherwise flip
the three container display styles, and either set the token from the held
credential, kick off the dashboard init and write the session flag
(signed-in), or clear the gapi token (signed-out). -/
def updateSigninStatus (env : Env) (isSignedIn : Bool) (s : AppState) : AppState :=
  if !(env.signInContainer && env.mainContent && env.signOutButton) then
    { s with log := s.log ++ ["Required DOM elements not found"] }
  else if isSignedIn then
    let s1 := { s with loginDisplay := Display.none, mainDisplay := Display.block,
                       signoutDisplay := Display.block }
    let s2 := setTokenFromCredential s1
    let s3 := if env.sheetsIntegration then
                { s2 with events := s2.events ++ [Ev.dashboardInit] }
              else s2
    { s3 with sessionIsLoggedIn := some "true" }
  else
    { s with loginDisplay := Display.block, mainDisplay := Display.none,
             signoutDisplay := Display.none, gapiToken := GapiToken.empty }

/-- `handleCredentialResponse` (`script.js` lines 99-115): a truthy
`response.credential` is stored in `currentIdToken` and the signed-in
transition runs; a missing/empty credential throws, which the catch turns
into a user-visible error followed by the signed-out transition. -/
def handleCredentialResponse (env : Env) (cred : Option String) (s : AppState) : AppState :=
  match cred with
  | some c =>
      if c = "" then
        updateSigninStatus env false
          { s with events := s.events ++ [Ev.showUserError "Terjadi kesalahan: No credential in response"] }
      else
        updateSigninStatus env true { s with currentIdToken := some c }
  | none =>
      updateSigninStatus env false
        { s with events := s.events ++ [Ev.showUserError "Terjadi kesalahan: No credential in response"] }

/-- `handleSignoutClick` (`script.js` lines 147-164): revoke auto-select when
the identity global exists, null the held credential, run the signed-out
transition, then remove the `isLoggedIn` key from BOTH `sessionStorage`
(line 158) and `localStorage` (line 159). -/
def handleSignoutClick (env : Env) (s : AppState) : AppState :=
  let s1 := if env.googleDefined then { s with events := s.events ++ [Ev.disableAutoSelect] } else s
  let s2 := { s1 with currentIdToken := none }
  let s3 := updateSigninStatus env false s2
  { s3 with sessionIsLoggedIn := none, localIsLoggedIn := none }

/-- `maybeRenderSignInButton` (`script.js` lines 117-145): only when both
readiness flags are true and the `g_id_onload` container exists, render the
sign-in button and then run `updateSigninStatus(false)`. -/
def maybeRenderSignInButton (env : Env) (s : AppState) : AppState :=
  if s.gapiInited && s.gisLoadedFlag then
    if env.gIdOnload then
      updateSigninStatus env false { s with events := s.events ++ [Ev.renderButton] }
    else s
  else s

/-- Success path of `initializeGapiClient` (`script.js` lines 55-63): set
`gapiInited` and run the gating check. -/
def gapiInitSuccess (env : Env) (s : AppState) : AppState :=
  maybeRenderSignInButton env { s with gapiInited := true }

/-- Success path of `window.gisLoaded` (`script.js` lines 85-92): set
`gisLoadedFlag` and run the gating check. -/
def gisLoadedSuccess (env : Env) (s : AppState) : AppState :=
  maybeRenderSignInButton env { s with gisLoadedFlag := true }

/-- The `DOMContentLoaded` handler (`script.js` lines 251-278): bail out when
one of its required elements is missing, otherwise replay the signed-in
transition when `sessionStorage.isLoggedIn === "true"`. -/
def domContentLoadedRestore (env : Env) (s : AppState) : AppState :=
  if !(env.signInContainer && env.mainContent && env.errorDisplay) then
    { s with log := s.log ++ ["Missing elements"] }
  else if s.sessionIsLoggedIn = some "true" then
    updateSigninStatus env true s
  else s

/-- `MAX_INITIALIZATION_ATTEMPTS` (`script.js` line 8). -/
def MAX_INITIALIZATION_ATTEMPTS : Nat := 3

/-- Delay list of an always-failing `initializeGapiClient` run starting from
the given `initializationAttempts` value (`script.js` lines 65-73): each
failing invocation increments the counter, and only while the incremented
counter is still below the cap is one more invocation scheduled after
`2000 * initializationAttempts` ms. -/
def failingRunDelays (attempts : Nat) : List Nat :=
  if h : attempts + 1 < MAX_INITIALIZATION_ATTEMPTS then
    2000 * (attempts + 1) :: failingRunDelays (attempts + 1)
  else
    []
termination_by MAX_INITIALIZATION_ATTEMPTS - attempts
decreasing_by omega

/-- `deleteCustomerRow` (`script.js` lines 483-521): map the displayed
0-based `rowIndex` to the 1-based sheet row `rowIndex + 2`, then build one
`deleteDimension` request over `ROWS` with the API's 0-based end-exclusive
range `[sheetRowIndex - 1, sheetRowIndex)`. -/
def deleteCustomerRow (rowIndex : Nat) : DeleteBatchRequest :=
  let sheetRowIndex := rowIndex + 2
  { requests := [{ sheetId := 0, dimension := "ROWS",
                   startIndex := sheetRowIndex - 1, endIndex := sheetRowIndex }] }

/-- The add-customer form fields, as read out of `FormData`
(`script.js` lines 621-650); a field left empty reads as `""`,
which is falsy in JS. -/
structure CustomerData where
  nama : String
  no_telepon : String
  alamat : String
  odp_terdekat : String
  nama_sales : String
  visit : String
  keterangan : String
  status : String
  email : String
  kelurahan : String
  tanggal_visit : String
  priority : String
deriving DecidableEq, Repr

/-- JS `a || b` on strings: the default wins exactly when `a` is empty. -/
def jsOr (s d : String) : String := if s = "" then d else s

/-- The 12-column row shaped by `handleAddCustomerSubmit`
(`script.js` lines 637-652), columns A-L. -/
def addCustomerRowData (c : CustomerData) : List String :=
  [jsOr c.odp_terdekat "", jsOr c.nama "", jsOr c.alamat "", jsOr c.no_telepon "",
   jsOr c.nama_sales "", jsOr c.visit "Not Visited", jsOr c.keterangan "",
   jsOr c.status "Baru", jsOr c.email "", jsOr c.kelurahan "",
   jsOr c.tanggal_visit "", jsOr c.priority "Normal"]

/-- `handleAddCustomerSubmit` (`script.js` lines 612-697) as the ordered
list of external calls it makes: bail out with a banner when the API client
is not ready; bail out with the validation banner when any of the 5
required fields is empty; otherwise read the current values (to find the
next empty row `values.length + 2`), write the new row to
`A<nextRow>:L<nextRow>` and show the success banner. -/
def handleAddCustomerSubmit (gapiInitedFlag sheetsReady : Bool) (c : CustomerData)
    (sheetValues : List (List String)) : List Ev :=
  if !(gapiInitedFlag && sheetsReady) then
    [Ev.showUserError "Google API client not initialized. Please try again."]
  else if c.nama = "" ∨ c.no_telepon = "" ∨ c.alamat = "" ∨ c.odp_terdekat = "" ∨ c.nama_sales = "" then
    [Ev.showUserError "Mohon lengkapi semua field yang wajib diisi"]
  else
    let nextRow := sheetValues.length + 2
    [Ev.sheetsGet,
     Ev.sheetsUpdate { startCol := "A", startRow := nextRow, endCol := "L", endRow := nextRow,
                       valueInputOption := "USER_ENTERED", values := [addCustomerRowData c] },
     Ev.showUserError "Calon pelanggan berhasil ditambahkan!"]

/-- The edit-modal form fields (`script.js` lines 430-437). -/
structure EditFormFields where
  editOdp : String
  editNama : String
  editAlamat : String
  editTelepon : String
  editSales : String
  editVisit : String
  editKeterangan : String
  editStatus : String
deriving DecidableEq, Repr

/-- The edit-form submit handler (`script.js` lines 422-462) as the ordered
list of external calls it makes: compute `rowToUpdate = index + 2`, then
issue one `values.update` over `A<rowToUpdate>:H<rowToUpdate>` with the
single 8-element row read from the modal. -/
def editFormSubmit (index : Nat) (f : EditFormFields) : List Ev :=
  let rowToUpdate := index + 2
  [Ev.sheetsUpdate { startCol := "A", startRow := rowToUpdate,
                     endCol := "H", endRow := rowToUpdate,
                     valueInputOption := "USER_ENTERED",
                     values := [[f.editOdp, f.editNama, f.editAlamat, f.editTelepon,
                                 f.editSales, f.editVisit, f.editKeterangan, f.editStatus]] }]

/-- Remote spreadsheet calls (reads and writes), as opposed to purely local
UI effects. -/
def isRemoteEv : Ev → Bool
  | Ev.sheetsGet => true
  | Ev.sheetsUpdate _ => true
  | Ev.batchUpdateDelete _ => true
  | _ => false

/-- A page environment in which every load-bearing DOM element and external
global is available. -/
def envAll : Env where
  signInContainer := true
  mainContent := true
  signOutButton := true
  gIdOnload := true
  errorDisplay := true
  googleDefined := true
  sheetsIntegration := true
/-- A page environment whose `main-content` container is missing while the
sign-in containers are present. -/
def envNoMain : Env where
  signInContainer := true
  mainContent := false
  signOutButton := true
  gIdOnload := true
  errorDisplay := true
  googleDefined := true
  sheetsIntegration := true
/-- Invariant of the event loop: a sign-in button render has only ever been
issued if both readiness flags are (and remain) set. -/
def RenderImpliesReady (s : AppState) : Prop :=
  Ev.renderButton ∈ s.events → s.gapiInited = true ∧ s.gisLoadedFlag = true
/-- A single event-loop callback invocation of `script.js`: the two
initialization completions, the credential callback, the sign-out click and
the page-load session restore. -/
inductive HandlerStep : AppState → AppState → Prop where
  | gapiInit (env : Env) (s : AppState) : HandlerStep s (gapiInitSuccess env s)
  | gisLoad (env : Env) (s : AppState) : HandlerStep s (gisLoadedSuccess env s)
  | cred (env : Env) (c : Option String) (s : AppState) :
      HandlerStep s (handleCredentialResponse env c s)
  | signout (env : Env) (s : AppState) : HandlerStep s (handleSignoutClick env s)
  | restore (env : Env) (s : AppState) : HandlerStep s (domContentLoadedRestore env s)
/-- States reachable from script load by any sequence of event-loop
callbacks, starting from arbitrary pre-existing storage contents. -/
inductive ReachableState : AppState → Prop where
  | init (sessionFlag localFlag : Option String) :
      ReachableState (initialState sessionFlag localFlag)
  | step {s t : AppState} : ReachableState s → HandlerStep s t → ReachableState t

theorem updateSigninStatus_gapiInited (env : Env) (b : Bool) (s : AppState) :
    (updateSigninStatus env b s).gapiInited = s.gapiInited := by
  unfold updateSigninStatus setTokenFromCredential
  dsimp only
  repeat' split
  all_goals rfl

theorem updateSigninStatus_gisLoadedFlag (env : Env) (b : Bool) (s : AppState) :
    (updateSigninStatus env b s).gisLoadedFlag = s.gisLoadedFlag := by
  unfold updateSigninStatus setTokenFromCredential
  dsimp only
  repeat' split
  all_goals rfl

theorem updateSigninStatus_renderMem (env : Env) (b : Bool) (s : AppState) :
    Ev.renderButton ∈ (updateSigninStatus env b s).events ↔ Ev.renderButton ∈ s.events := by
  unfold updateSigninStatus setTokenFromCredential
  dsimp only
  repeat' split
  all_goals simp

theorem renderInv_updateSigninStatus (env : Env) (b : Bool) (s : AppState)
    (h : RenderImpliesReady s) : RenderImpliesReady (updateSigninStatus env b s) := by
  intro hm
  rw [updateSigninStatus_gapiInited, updateSigninStatus_gisLoadedFlag]
  exact h ((updateSigninStatus_renderMem env b s).mp hm)

theorem renderInv_maybeRender (env : Env) (s : AppState)
    (h : RenderImpliesReady s) : RenderImpliesReady (maybeRenderSignInButton env s) := by
  unfold maybeRenderSignInButton
  split
  case isTrue hflags =>
    split
    case isTrue _ =>
      intro hm
      rw [updateSigninStatus_gapiInited, updateSigninStatus_gisLoadedFlag]
      exact Bool.and_eq_true_iff.mp hflags
    case isFalse _ => exact h
  case isFalse _ => exact h

theorem renderInv_gapiInitSuccess (env : Env) (s : AppState)
    (h : RenderImpliesReady s) : RenderImpliesReady (gapiInitSuccess env s) := by
  unfold gapiInitSuccess
  apply renderInv_maybeRender
  intro hm
  exact ⟨rfl, (h hm).2⟩

theorem renderInv_gisLoadedSuccess (env : Env) (s : AppState)
    (h : RenderImpliesReady s) : RenderImpliesReady (gisLoadedSuccess env s) := by
  unfold gisLoadedSuccess
  apply renderInv_maybeRender
  intro hm
  exact ⟨(h hm).1, rfl⟩

theorem renderInv_cred (env : Env) (c : Option String) (s : AppState)
    (h : RenderImpliesReady s) : RenderImpliesReady (handleCredentialResponse env c s) := by
  unfold handleCredentialResponse
  match c with
  | some cc =>
    dsimp only
    split
    · apply renderInv_updateSigninStatus
      intro hm
      exact h (by simpa using hm)
    · apply renderInv_updateSigninStatus
      intro hm
      exact h hm
  | none =>
    apply renderInv_updateSigninStatus
    intro hm
    exact h (by simpa using hm)

theorem renderInv_signout (env : Env) (s : AppState)
    (h : RenderImpliesReady s) : RenderImpliesReady (handleSignoutClick env s) := by
  unfold handleSignoutClick
  have h1 : RenderImpliesReady
      (if env.googleDefined then { s with events := s.events ++ [Ev.disableAutoSelect] } else s) := by
    split
    · intro hm
      exact h (by simpa using hm)
    · exact h
  have h2 : RenderImpliesReady
      (updateSigninStatus env false
        { (if env.googleDefined then { s with events := s.events ++ [Ev.disableAutoSelect] } else s) with
          currentIdToken := none }) := by
    apply renderInv_updateSigninStatus
    intro hm
    exact h1 hm
  intro hm
  exact h2 hm

theorem renderInv_restore (env : Env) (s : AppState)
    (h : RenderImpliesReady s) : RenderImpliesReady (domContentLoadedRestore env s) := by
  unfold domContentLoadedRestore
  split
  · intro hm
    exact h hm
  · split
    · exact renderInv_updateSigninStatus env true s h
    · exact h

theorem reachable_renderInv {s : AppState} (h : ReachableState s) :
    RenderImpliesReady s := by
  induction h with
  | init a b =>
    intro hm
    simp [initialState] at hm
  | step _ hs ih =>
    cases hs with
    | gapiInit env => exact renderInv_gapiInitSuccess env _ ih
    | gisLoad env => exact renderInv_gisLoadedSuccess env _ ih
    | cred env c => exact renderInv_cred env c _ ih
    | signout env => exact renderInv_signout env _ ih
    | restore env => exact renderInv_restore env _ ih

/-- Claim C1, counterexample: an always-failing initialization run starting
from the load-time counter value 0 does not produce the three delays
2000, 4000, 6000 ms claimed by the spec. -/
theorem gapi_retry_cex : failingRunDelays 0 ≠ [2000, 4000, 6000] := by
  rw [failingRunDelays, failingRunDelays, failingRunDelays]
  simp [MAX_INITIALIZATION_ATTEMPTS]

/-- Claim C1 (amended): if gapi client initialization fails on every
attempt, it is retried exactly `MAX_INITIALIZATION_ATTEMPTS - 1 = 2` times,
the k-th retry scheduled after `2000 * k` ms: delays 2000 then 4000 ms. -/
theorem gapi_retry_schedule :
    failingRunDelays 0 = [2000 * 1, 2000 * 2] ∧
    (failingRunDelays 0).length = MAX_INITIALIZATION_ATTEMPTS - 1 := by
  rw [failingRunDelays, failingRunDelays, failingRunDelays]
  simp [MAX_INITIALIZATION_ATTEMPTS]

/-- Claim C2, counterexample: signing in from a fresh page (credential
`"tok"`, all DOM containers present) writes only the session-scoped key,
leaving the page-scoped key absent; and an explicit sign-out started from a
state in which both stores hold `"true"` clears BOTH keys, not just one. -/
theorem storage_keys_cex :
    (handleCredentialResponse envAll (some "tok") (initialState none none)).localIsLoggedIn
        ≠ some "true" ∧
    (handleSignoutClick envAll
        { initialState (some "true") (some "true") with currentIdToken := some "tok" }).sessionIsLoggedIn
        = none ∧
    (handleSignoutClick envAll
        { initialState (some "true") (some "true") with currentIdToken := some "tok" }).localIsLoggedIn
        = none := by
  refine ⟨by decide, rfl, rfl⟩

/-- Claim C2 (amended): on the sign-in transition only the session-scoped
storage key is written (to `"true"`); the page-scoped key is not touched.
On the sign-out transition BOTH keys are cleared. -/
theorem storage_keys_signin_signout (env : Env) (s s2 : AppState) (c : String)
    (h1 : env.signInContainer = true) (h2 : env.mainContent = true)
    (h3 : env.signOutButton = true) (hc : ¬ c = "") :
    ((handleCredentialResponse env (some c) s).sessionIsLoggedIn = some "true" ∧
     (handleCredentialResponse env (some c) s).localIsLoggedIn = s.localIsLoggedIn) ∧
    ((handleSignoutClick env s2).sessionIsLoggedIn = none ∧
     (handleSignoutClick env s2).localIsLoggedIn = none) := by
  refine ⟨⟨?_, ?_⟩, rfl, rfl⟩ <;>
  · unfold handleCredentialResponse updateSigninStatus setTokenFromCredential
    dsimp only
    rw [if_neg hc]
    simp [h1, h2, h3]
    repeat' split
    all_goals rfl

/-- Claim C2 witness: instantiation at a concrete environment, state and
credential. -/
theorem storage_keys_signin_signout_witness :
    (((handleCredentialResponse envAll (some "tok") (initialState none none)).sessionIsLoggedIn
          = some "true" ∧
      (handleCredentialResponse envAll (some "tok") (initialState none none)).localIsLoggedIn
          = (initialState none none).localIsLoggedIn) ∧
     ((handleSignoutClick envAll (initialState none none)).sessionIsLoggedIn = none ∧
      (handleSignoutClick envAll (initialState none none)).localIsLoggedIn = none)) :=
  storage_keys_signin_signout envAll (initialState none none) (initialState none none) "tok"
    rfl rfl rfl (by decide)

/-- Claim C3: for every displayed-row index `i`, the delete operation issues
exactly one `deleteDimension` batch request over `ROWS`, with
`startIndex = i + 1` and `endIndex = i + 2` (an end-exclusive range of
length 1); in particular for `i = 0` the range is `[1, 2)`. -/
theorem delete_row_range (i : Nat) :
    deleteCustomerRow i =
      { requests := [{ sheetId := 0, dimension := "ROWS",
                       startIndex := i + 1, endIndex := i + 2 }] } := rfl

/-- Claim C4: a signed-out to signed-in transition driven by a non-empty
credential sets the gapi client token from that credential and writes the
session flag `"true"`. -/
theorem signin_sets_token_and_flag (env : Env) (s : AppState) (c : String)
    (h1 : env.signInContainer = true) (h2 : env.mainContent = true)
    (h3 : env.signOutButton = true) (hc : ¬ c = "") :
    (handleCredentialResponse env (some c) s).gapiToken = GapiToken.token c ∧
    (handleCredentialResponse env (some c) s).sessionIsLoggedIn = some "true" := by
  unfold handleCredentialResponse updateSigninStatus setTokenFromCredential
  dsimp only
  rw [if_neg hc]
  simp [h1, h2, h3]
  repeat' split
  all_goals simp_all

/-- Claim C4 witness. -/
theorem signin_sets_token_and_flag_witness :
    (handleCredentialResponse envAll (some "tok") (initialState none none)).gapiToken
        = GapiToken.token "tok" ∧
    (handleCredentialResponse envAll (some "tok") (initialState none none)).sessionIsLoggedIn
        = some "true" :=
  signin_sets_token_and_flag envAll (initialState none none) "tok" rfl rfl rfl (by decide)

/-- Claim C5: an explicit sign-out (all view containers present, identity
global defined) clears the gapi client token to the empty token, revokes
auto-select, and clears the held credential. -/
theorem signout_clears_token (env : Env) (s : AppState)
    (h1 : env.signInContainer = true) (h2 : env.mainContent = true)
    (h3 : env.signOutButton = true) (hg : env.googleDefined = true) :
    (handleSignoutClick env s).gapiToken = GapiToken.empty ∧
    (handleSignoutClick env s).currentIdToken = none ∧
    (handleSignoutClick env s).events = s.events ++ [Ev.disableAutoSelect] := by
  unfold handleSignoutClick updateSigninStatus
  dsimp only
  simp [h1, h2, h3, hg]

/-- Claim C5 witness. -/
theorem signout_clears_token_witness :
    (handleSignoutClick envAll (initialState none none)).gapiToken = GapiToken.empty ∧
    (handleSignoutClick envAll (initialState none none)).currentIdToken = none ∧
    (handleSignoutClick envAll (initialState none none)).events
        = (initialState none none).events ++ [Ev.disableAutoSelect] :=
  signout_clears_token envAll (initialState none none) rfl rfl rfl rfl

/-- Claim C6: an add-customer submission in which any one of the 5 required
fields is empty short-circuits with the user-visible validation banner and
issues no remote read or write, for every spreadsheet content. -/
theorem add_customer_validation (c : CustomerData) (vs : List (List String))
    (h : c.nama = "" ∨ c.no_telepon = "" ∨ c.alamat = "" ∨ c.odp_terdekat = "" ∨
         c.nama_sales = "") :
    handleAddCustomerSubmit true true c vs
        = [Ev.showUserError "Mohon lengkapi semua field yang wajib diisi"] ∧
    (handleAddCustomerSubmit true true c vs).filter isRemoteEv = [] := by
  have hmain : handleAddCustomerSubmit true true c vs
      = [Ev.showUserError "Mohon lengkapi semua field yang wajib diisi"] := by
    unfold handleAddCustomerSubmit
    rw [if_neg (by simp)]
    rw [if_pos h]
  exact ⟨hmain, by rw [hmain]; rfl⟩

/-- Claim C6 witness: the add form submitted with an empty name field. -/
theorem add_customer_validation_witness :
    handleAddCustomerSubmit true true
        { nama := "", no_telepon := "0812", alamat := "Jl. Mawar", odp_terdekat := "ODP-1",
          nama_sales := "Andi", visit := "", keterangan := "", status := "", email := "",
          kelurahan := "", tanggal_visit := "", priority := "" } [["row"]]
      = [Ev.showUserError "Mohon lengkapi semua field yang wajib diisi"] ∧
    (handleAddCustomerSubmit true true
        { nama := "", no_telepon := "0812", alamat := "Jl. Mawar", odp_terdekat := "ODP-1",
          nama_sales := "Andi", visit := "", keterangan := "", status := "", email := "",
          kelurahan := "", tanggal_visit := "", priority := "" } [["row"]]).filter isRemoteEv
      = [] :=
  add_customer_validation
    { nama := "", no_telepon := "0812", alamat := "Jl. Mawar", odp_terdekat := "ODP-1",
      nama_sales := "Andi", visit := "", keterangan := "", status := "", email := "",
      kelurahan := "", tanggal_visit := "", priority := "" } [["row"]] (Or.inl rfl)

/-- Claim C7: every edit submission with displayed-row index `i` issues
exactly one update-values call, targeting the single absolute row `i + 2`
over columns A through H, with one 8-element row of values. -/
theorem edit_submit_targets_row (i : Nat) (f : EditFormFields) :
    editFormSubmit i f =
      [Ev.sheetsUpdate { startCol := "A", startRow := i + 2, endCol := "H", endRow := i + 2,
                         valueInputOption := "USER_ENTERED",
                         values := [[f.editOdp, f.editNama, f.editAlamat, f.editTelepon,
                                     f.editSales, f.editVisit, f.editKeterangan,
                                     f.editStatus]] }] ∧
    ((editFormSubmit i f).filter isRemoteEv).length = 1 ∧
    [f.editOdp, f.editNama, f.editAlamat, f.editTelepon, f.editSales, f.editVisit,
     f.editKeterangan, f.editStatus].length = 8 :=
  ⟨rfl, rfl, rfl⟩

/-- Claim C8: when any of the three required view containers is missing, the
sign-in/sign-out transition only appends a diagnostic log line — container
visibility, tokens, credential, storage keys and external calls are all
untouched. -/
theorem missing_dom_noop (env : Env) (b : Bool) (s : AppState)
    (h : (env.signInContainer && env.mainContent && env.signOutButton) = false) :
    updateSigninStatus env b s
      = { s with log := s.log ++ ["Required DOM elements not found"] } := by
  unfold updateSigninStatus
  simp [h]

/-- Claim C8 witness: the transition attempted with `main-content` missing. -/
theorem missing_dom_noop_witness :
    updateSigninStatus envNoMain true (initialState none none)
      = { initialState none none with
          log := (initialState none none).log ++ ["Required DOM elements not found"] } :=
  missing_dom_noop envNoMain true (initialState none none) rfl

/-- Claim C9: in every state reachable by the event loop in which the two
readiness flags are not both true, the sign-in button render call has never
been invoked. -/
theorem render_gated_on_ready (s : AppState) (hr : ReachableState s)
    (h : ¬ (s.gapiInited = true ∧ s.gisLoadedFlag = true)) :
    Ev.renderButton ∉ s.events :=
  fun hm => h (reachable_renderInv hr hm)

/-- Claim C9 witness: the load-time state. -/
theorem render_gated_on_ready_witness :
    Ev.renderButton ∉ (initialState none none).events :=
  render_gated_on_ready (initialState none none) (ReachableState.init none none) (by decide)

/-- Claim C10, counterexample: with both readiness flags true and the
sign-in container present but `main-content` missing, the gating check does
render the sign-in button, yet the subsequent signed-out transition is a
no-op: the gapi token restored for the signed-in session is NOT cleared and
the (would-be) main content display is NOT hidden. -/
theorem render_forces_signout_cex :
    Ev.renderButton ∈ (maybeRenderSignInButton envNoMain
        { initialState (some "true") none with
          gapiInited := true
          gisLoadedFlag := true
          gapiToken := GapiToken.token "tok"
          mainDisplay := Display.block }).events ∧
    (maybeRenderSignInButton envNoMain
        { initialState (some "true") none with
          gapiInited := true
          gisLoadedFlag := true
          gapiToken := GapiToken.token "tok"
          mainDisplay := Display.block }).gapiToken
      = GapiToken.token "tok" ∧
    (maybeRenderSignInButton envNoMain
        { initialState (some "true") none with
          gapiInited := true
          gisLoadedFlag := true
          gapiToken := GapiToken.token "tok"
          mainDisplay := Display.block }).mainDisplay
      = Display.block := by
  refine ⟨by decide, rfl, rfl⟩

/-- Claim C10 (amended): whenever both readiness flags are true and the
sign-in container AND the three view-state containers are all present, the
gating check renders the sign-in button and immediately invokes the
signed-out transition: the gapi token is cleared to the empty token and the
main content is hidden — including when a signed-in session had already
been restored from the persisted session flag. -/
theorem render_forces_signout (env : Env) (s : AppState)
    (h1 : env.signInContainer = true) (h2 : env.mainContent = true)
    (h3 : env.signOutButton = true) (h4 : env.gIdOnload = true)
    (hg : s.gapiInited = true) (hi : s.gisLoadedFlag = true) :
    (maybeRenderSignInButton env s).events = s.events ++ [Ev.renderButton] ∧
    (maybeRenderSignInButton env s).gapiToken = GapiToken.empty ∧
    (maybeRenderSignInButton env s).mainDisplay = Display.none := by
  unfold maybeRenderSignInButton updateSigninStatus
  dsimp only
  simp [h1, h2, h3, h4, hg, hi]

/-- Claim C10 witness: instantiated at the state reached by restoring a
signed-in session from the persisted flag and completing both
initializations. -/
theorem render_forces_signout_witness :
    (maybeRenderSignInButton envAll
        { domContentLoadedRestore envAll (initialState (some "true") none) with
          gapiInited := true
          gisLoadedFlag := true }).events
      = (domContentLoadedRestore envAll (initialState (some "true") none)).events
          ++ [Ev.renderButton] ∧
    (maybeRenderSignInButton envAll
        { domContentLoadedRestore envAll (initialState (some "true") none) with
          gapiInited := true
          gisLoadedFlag := true }).gapiToken = GapiToken.empty ∧
    (maybeRenderSignInButton envAll
        { domContentLoadedRestore envAll (initialState (some "true") none) with
          gapiInited := true
          gisLoadedFlag := true }).mainDisplay = Display.none :=
  render_forces_signout envAll
    { domContentLoadedRestore envAll (initialState (some "true") none) with
      gapiInited := true
      gisLoadedFlag := true }
    rfl rfl rfl rfl rfl rfl
